import Mathlib

/-!
Verification of the khmer Python binding boundary layer
(src/khmer/_khmermodule.cc) against its natural-language specification.

The C extension module is shallowly embedded: each boundary function is
translated into a pure Lean function over explicit state, with native
engine behaviour (which lives outside this file of the repository)
represented as an explicit input to the boundary function, mirroring the
catch clauses of the C code.
-/

/-- A genomic read as wrapped by the khmer Read object
(fields of read_parsers Read exposed by khmer_Read_accessors). -/
structure Read where
  name : String
  sequence : String
  accuracy : String
deriving DecidableEq, Repr

/-- One item of the underlying native record stream: either a well-formed
record, or a position where the native parser raises StreamReadError. -/
inductive StreamItem where
  | ok (r : Read)
  | bad (msg : String)
deriving DecidableEq, Repr

/-- Outcome of one pull on a ReadParser, as seen by the host:
a yielded record, the normal StopIteration signal (the C code returns
NULL with no exception set), or a raised IOError. -/
inductive ReadIterOutcome where
  | yieldRead (r : Read)
  | stopIteration
  | ioError (msg : String)
deriving DecidableEq, Repr

/-- Shallow embedding of _ReadParser_iternext: the parser state is the
remaining native stream. The C code first asks is_complete (empty
stream), else imprints the next read, turning NoMoreReadsAvailable into
the stop signal and StreamReadError into an IOError. -/
def ReadParser_iternext : List StreamItem → ReadIterOutcome × List StreamItem
  | [] => (ReadIterOutcome.stopIteration, [])
  | StreamItem.ok r :: rest => (ReadIterOutcome.yieldRead r, rest)
  | StreamItem.bad msg :: rest => (ReadIterOutcome.ioError msg, rest)

/-- The outcomes of k successive pulls on a ReadParser. -/
def ReadParser_pulls : List StreamItem → Nat → List ReadIterOutcome
  | _, 0 => []
  | s, Nat.succ k =>
    (ReadParser_iternext s).fst :: ReadParser_pulls (ReadParser_iternext s).snd k

/-- A Python value observed by the cancellation bridge: the None
singleton or a callable object (identified by a tag). -/
inductive PyVal where
  | pynone
  | callable (id : Nat)
deriving DecidableEq, Repr

/-- Observer-selection logic of _report_fn: `data` is the call-local
observer argument (NULL modelled as none), `callback_obj` the
process-wide default. The C code substitutes the default only when data
is NULL and the default is set, then invokes the chosen object unless it
is Py_None. Returns the id of the callable actually invoked, if any. -/
def report_fn_observer (data : Option PyVal) (callback_obj : Option PyVal) :
    Option Nat :=
  let chosen : Option PyVal :=
    match data with
    | none => callback_obj
    | some x => some x
  match chosen with
  | some (PyVal.callable i) => some i
  | _ => none

/-- Embedding of set_reporting_callback: unconditionally replaces the
process-wide default observer with the argument. -/
def set_reporting_callback (_cur : Option PyVal) (o : PyVal) : Option PyVal :=
  some o

theorem ReadParser_pulls_nil (k : Nat) :
    ReadParser_pulls [] k = List.replicate k ReadIterOutcome.stopIteration := by
  induction k with
  | zero => rfl
  | succ k ih => simp [ReadParser_pulls, ReadParser_iternext, ih, List.replicate]

/-- C1: for an input stream of N well-formed records, iterating the
ReadParser yields exactly the N records in input order, then the normal
end-of-stream signal (StopIteration, not a raised failure) on the next
pull and on every further pull, so the end signal is idempotent. -/
theorem claim_C1_streaming_iteration (rs : List Read) (k : Nat) :
    ReadParser_pulls (rs.map StreamItem.ok) (rs.length + k) =
      rs.map ReadIterOutcome.yieldRead ++
        List.replicate k ReadIterOutcome.stopIteration := by
  induction rs with
  | nil => simpa using ReadParser_pulls_nil k
  | cons r rest ih =>
    have hlen : (r :: rest).length + k = Nat.succ (rest.length + k) := by
      simp [List.length_cons, Nat.succ_add, Nat.add_comm, Nat.add_assoc]
    rw [hlen]
    simp only [List.map_cons, ReadParser_pulls, ReadParser_iternext]
    simpa using ih

/-- C2: in the cancellation bridge, an explicitly passed observer is the
one invoked regardless of the process-wide default; the default is
consulted only when no call-local observer was supplied; and passing the
None sentinel (call-locally, or as the registered default) suppresses
any invocation. -/
theorem claim_C2_observer_selection :
    (∀ (i : Nat) (cb : Option PyVal),
      report_fn_observer (some (PyVal.callable i)) cb = some i) ∧
    (∀ cb : Option PyVal, report_fn_observer (some PyVal.pynone) cb = none) ∧
    (∀ i : Nat, report_fn_observer none (some (PyVal.callable i)) = some i) ∧
    report_fn_observer none (some PyVal.pynone) = none ∧
    report_fn_observer none none = none := by
  refine ⟨fun i cb => rfl, fun cb => rfl, fun i => rfl, rfl, rfl⟩

/-- A PyCapsule as used for opaque handles: a kind-tag name plus the
wrapped native pointer (an address). -/
structure Capsule where
  tag : String
  ptr : Nat
deriving DecidableEq, Repr

/-- PyCapsule_IsValid: true exactly when the declared kind tag of the
capsule matches the expected one. -/
def PyCapsule_IsValid (c : Capsule) (expected : String) : Bool :=
  c.tag == expected

/-- PyCapsule_GetPointer: the wrapped pointer when the tag matches,
otherwise NULL (with a ValueError set), modelled as none. -/
def PyCapsule_GetPointer (c : Capsule) (expected : String) : Option Nat :=
  if c.tag == expected then some c.ptr else none

/-- Outcome of a handle-consuming boundary operation: it reaches the
native call with a valid pointer, returns a reported ValueError, or
dereferences a NULL pointer (undefined behaviour in the C code). -/
inductive HandleOutcome where
  | ok (ptr : Nat)
  | valueError (msg : String)
  | nullDeref
deriving DecidableEq, Repr

/-- Embedding of hashbits_assign_partition_id: checks PyCapsule_IsValid
on the khmer.pre_partition_info tag first and reports a ValueError on
mismatch, before extracting and using the pointer. -/
def hashbits_assign_partition_id (c : Capsule) : HandleOutcome :=
  if ¬ PyCapsule_IsValid c "khmer.pre_partition_info" then
    HandleOutcome.valueError "invalid pre_partition_info"
  else
    match PyCapsule_GetPointer c "khmer.pre_partition_info" with
    | some p => HandleOutcome.ok p
    | none => HandleOutcome.nullDeref

/-- Embedding of hashbits_subset_count_partitions: calls
PyCapsule_GetPointer with no prior validity check and immediately calls
count_partitions through the returned pointer, so a tag mismatch leads
to a NULL dereference. -/
def hashbits_subset_count_partitions (c : Capsule) : HandleOutcome :=
  match PyCapsule_GetPointer c "khmer.SubsetPartition" with
  | some p => HandleOutcome.ok p
  | none => HandleOutcome.nullDeref

/-- Embedding of hashbits_save_subset_partitionmap: likewise extracts
the pointer with no validity check and calls save_partitionmap through
it, so a tag mismatch leads to a NULL dereference. -/
def hashbits_save_subset_partitionmap (c : Capsule) : HandleOutcome :=
  match PyCapsule_GetPointer c "khmer.SubsetPartition" with
  | some p => HandleOutcome.ok p
  | none => HandleOutcome.nullDeref

/-- C3: evaluation at the failing input. Passing a capsule whose kind
tag is khmer.pre_partition_info to the two subset-consuming operations
makes each dereference the NULL pointer returned by
PyCapsule_GetPointer instead of reporting a failure, while
hashbits_assign_partition_id on a mismatched capsule does report a
ValueError, as the specification requires of every such operation. -/
theorem claim_C3_kind_check_null_deref :
    hashbits_subset_count_partitions ⟨"khmer.pre_partition_info", 42⟩ =
      HandleOutcome.nullDeref ∧
    hashbits_save_subset_partitionmap ⟨"khmer.pre_partition_info", 42⟩ =
      HandleOutcome.nullDeref ∧
    hashbits_assign_partition_id ⟨"khmer.SubsetPartition", 42⟩ =
      HandleOutcome.valueError "invalid pre_partition_info" := by
  refine ⟨rfl, rfl, rfl⟩

/-- The kind of Python exception a boundary failure is raised as. -/
inductive ExcKind where
  | ioExc
  | valueExc
deriving DecidableEq, Repr

/-- Progress counters written by reference by the native consume loop:
values of total_reads and n_consumed at the moment the native call
returns or throws. -/
structure ConsumeProgress where
  total_reads : Nat
  n_consumed : Nat
deriving DecidableEq, Repr

/-- How the native consume_fasta call ends: normal return, a
_khmer_signal thrown by the cancellation bridge, or a
khmer_file_exception from the engine. -/
inductive NativeConsume where
  | finished
  | signalExc (msg : String)
  | fileExc (msg : String)
deriving DecidableEq, Repr

/-- Result crossing the boundary to Python: a value carrying the two
counters, or a raised exception of some kind with a message. -/
inductive PyOutcome where
  | consumed (total_reads : Nat) (n_consumed : Nat)
  | raised (kind : ExcKind) (msg : String)
deriving DecidableEq, Repr

/-- Embedding of hash_consume_fasta: on normal return it builds the
value (total_reads, n_consumed); a _khmer_signal is re-raised as
IOError with the signal message, and a khmer_file_exception as IOError
with the engine message. -/
def hash_consume_fasta (p : ConsumeProgress) (r : NativeConsume) : PyOutcome :=
  match r with
  | NativeConsume.finished => PyOutcome.consumed p.total_reads p.n_consumed
  | NativeConsume.signalExc m => PyOutcome.raised ExcKind.ioExc m
  | NativeConsume.fileExc m => PyOutcome.raised ExcKind.ioExc m

/-- Embedding of hashbits_consume_fasta_and_tag, whose boundary code has
the same shape as hash_consume_fasta. -/
def hashbits_consume_fasta_and_tag (p : ConsumeProgress) (r : NativeConsume) :
    PyOutcome :=
  match r with
  | NativeConsume.finished => PyOutcome.consumed p.total_reads p.n_consumed
  | NativeConsume.signalExc m => PyOutcome.raised ExcKind.ioExc m
  | NativeConsume.fileExc m => PyOutcome.raised ExcKind.ioExc m

/-- C4 counterexample: a cancellation (the _khmer_signal raised by the
bridge, with its fixed message) and an engine-internal failure surfaced
verbatim with the same text cross the boundary as byte-for-byte
identical failure values, both of kind IOError, so the cancelled
outcome is not distinguishable from a native failure. -/
theorem claim_C4_counterexample :
    hash_consume_fasta ⟨5, 100⟩
        (NativeConsume.signalExc "PyErr_CheckSignals received a signal") =
      hash_consume_fasta ⟨5, 100⟩
        (NativeConsume.fileExc "PyErr_CheckSignals received a signal") := rfl

/-- C4 amended: both a cancellation and an engine failure cross the
boundary as the same host-catchable exception kind, IOError, with only
the message text preserved; the host cannot tell an operator-requested
stop from an engine error by exception kind, only by message content. -/
theorem claim_C4_amended (p : ConsumeProgress) (m : String) :
    hash_consume_fasta p (NativeConsume.signalExc m) =
      PyOutcome.raised ExcKind.ioExc m ∧
    hash_consume_fasta p (NativeConsume.fileExc m) =
      PyOutcome.raised ExcKind.ioExc m := ⟨rfl, rfl⟩

/-- C5 counterexample: two interrupted runs that had processed different
numbers of records (5 reads, 100 k-mers versus 7 reads, 200 k-mers)
cross the boundary as identical failure values, so the reported failure
cannot carry the counts processed at the point of failure. -/
theorem claim_C5_counterexample :
    hash_consume_fasta ⟨5, 100⟩
        (NativeConsume.signalExc "PyErr_CheckSignals received a signal") =
      hash_consume_fasta ⟨7, 200⟩
        (NativeConsume.signalExc "PyErr_CheckSignals received a signal") := rfl

/-- C5 amended: the progress counters are returned only on success; on
any failure the boundary raises IOError carrying only the exception
message, discarding the counts accumulated in total_reads and
n_consumed, in both hash_consume_fasta and
hashbits_consume_fasta_and_tag. -/
theorem claim_C5_amended (p : ConsumeProgress) (m : String) :
    hash_consume_fasta p NativeConsume.finished =
      PyOutcome.consumed p.total_reads p.n_consumed ∧
    hashbits_consume_fasta_and_tag p NativeConsume.finished =
      PyOutcome.consumed p.total_reads p.n_consumed ∧
    hashbits_consume_fasta_and_tag p (NativeConsume.signalExc m) =
      PyOutcome.raised ExcKind.ioExc m ∧
    hashbits_consume_fasta_and_tag p (NativeConsume.fileExc m) =
      PyOutcome.raised ExcKind.ioExc m := ⟨rfl, rfl, rfl, rfl⟩

/-- A pair of reads as produced by imprint_next_read_pair. -/
structure ReadPair where
  first : Read
  second : Read
deriving DecidableEq, Repr

/-- The pairing policy enumeration of the native parser interface. -/
inductive PairMode where
  | allowUnpaired
  | ignoreUnpaired
  | errorOnUnpaired
deriving DecidableEq, Repr

/-- The constant used as the default argument in
ReadParser_iter_read_pairs. -/
def PAIR_MODE_ERROR_ON_UNPAIRED : PairMode := PairMode.errorOnUnpaired

/-- How the native imprint_next_read_pair call ends, mirroring the four
catch clauses of _ReadPairIterator_iternext. -/
inductive NativePairPull where
  | pulled (p : ReadPair)
  | unknownPairReadingMode
  | invalidReadPair
  | streamReadError
  | noMoreReads
deriving DecidableEq, Repr

/-- Outcome of one pull on a ReadPairIterator as seen by the host: a
yielded pair, the normal StopIteration signal (NULL return with no
exception set), or a raised exception. -/
inductive PairIterOutcome where
  | yieldPair (p : ReadPair)
  | stopIteration
  | raised (kind : ExcKind) (msg : String)
deriving DecidableEq, Repr

/-- Embedding of the outcome logic of _ReadPairIterator_iternext: if the
parser is already complete or the native pull reports no more reads, the
iteration stops normally; the three native failure modes are re-raised
with the fixed exception kinds and messages of the C code; otherwise the
pulled pair is yielded. -/
def ReadPairIterator_outcome (isComplete : Bool) (pull : NativePairPull) :
    PairIterOutcome :=
  if isComplete then PairIterOutcome.stopIteration
  else
    match pull with
    | NativePairPull.noMoreReads => PairIterOutcome.stopIteration
    | NativePairPull.unknownPairReadingMode =>
        PairIterOutcome.raised ExcKind.valueExc
          "Unknown pair reading mode supplied."
    | NativePairPull.invalidReadPair =>
        PairIterOutcome.raised ExcKind.ioExc "Invalid read pair detected."
    | NativePairPull.streamReadError =>
        PairIterOutcome.raised ExcKind.ioExc "Input file error."
    | NativePairPull.pulled p => PairIterOutcome.yieldPair p

/-- The ReadPairIterator object: it stores the pairing mode chosen at
creation (and a reference to its parent parser, modelled separately by
the reference-count state machine below). -/
structure khmer_ReadPairIterator_Object where
  pair_mode : PairMode
deriving DecidableEq, Repr

/-- Embedding of ReadParser_iter_read_pairs: the optional argument
defaults to PAIR_MODE_ERROR_ON_UNPAIRED and the chosen mode is stored
in the new iterator object. -/
def ReadParser_iter_read_pairs (arg : Option PairMode) :
    khmer_ReadPairIterator_Object :=
  { pair_mode := arg.getD PAIR_MODE_ERROR_ON_UNPAIRED }

/-- Embedding of one full _ReadPairIterator_iternext step on an iterator
object: the native pull is performed with the stored pairing mode, and
the iterator object itself is returned unchanged (the C code never
writes to pair_mode after creation). -/
def ReadPairIterator_iternext (it : khmer_ReadPairIterator_Object)
    (isComplete : Bool) (pull : PairMode → NativePairPull) :
    PairIterOutcome × khmer_ReadPairIterator_Object :=
  (ReadPairIterator_outcome isComplete (pull it.pair_mode), it)

/-- C6: every pull on a ReadPairIterator ends in exactly one of: a
yielded RecordPair, the normal end-of-sequence signal, or one of the
three fixed failure values for UnknownPairingMode, InvalidReadPair and
StreamReadError; and those three failure values are pairwise
distinct. -/
theorem claim_C6_pair_iter_outcomes :
    (∀ (isComplete : Bool) (pull : NativePairPull),
      ReadPairIterator_outcome isComplete pull = PairIterOutcome.stopIteration ∨
      (∃ p, ReadPairIterator_outcome isComplete pull =
        PairIterOutcome.yieldPair p) ∨
      ReadPairIterator_outcome isComplete pull =
        PairIterOutcome.raised ExcKind.valueExc
          "Unknown pair reading mode supplied." ∨
      ReadPairIterator_outcome isComplete pull =
        PairIterOutcome.raised ExcKind.ioExc "Invalid read pair detected." ∨
      ReadPairIterator_outcome isComplete pull =
        PairIterOutcome.raised ExcKind.ioExc "Input file error.") ∧
    (PairIterOutcome.raised ExcKind.valueExc
        "Unknown pair reading mode supplied." ≠
      PairIterOutcome.raised ExcKind.ioExc "Invalid read pair detected.") ∧
    (PairIterOutcome.raised ExcKind.valueExc
        "Unknown pair reading mode supplied." ≠
      PairIterOutcome.raised ExcKind.ioExc "Input file error.") ∧
    (PairIterOutcome.raised ExcKind.ioExc "Invalid read pair detected." ≠
      PairIterOutcome.raised ExcKind.ioExc "Input file error.") := by
  refine ⟨?_, by decide, by decide, by decide⟩
  intro isComplete pull
  cases isComplete with
  | true => exact Or.inl rfl
  | false =>
    cases pull with
    | pulled p => exact Or.inr (Or.inl ⟨p, rfl⟩)
    | unknownPairReadingMode => exact Or.inr (Or.inr (Or.inl rfl))
    | invalidReadPair => exact Or.inr (Or.inr (Or.inr (Or.inl rfl)))
    | streamReadError => exact Or.inr (Or.inr (Or.inr (Or.inr rfl)))
    | noMoreReads => exact Or.inl rfl

/-- C10: with no pairing-policy argument, iter_read_pairs stores
PAIR_MODE_ERROR_ON_UNPAIRED in the new iterator; an explicit argument is
stored as given; and every subsequent pull uses the stored mode for the
native call and leaves the stored mode unchanged. -/
theorem claim_C10_default_pair_mode :
    (ReadParser_iter_read_pairs none).pair_mode =
      PAIR_MODE_ERROR_ON_UNPAIRED ∧
    (∀ m : PairMode, (ReadParser_iter_read_pairs (some m)).pair_mode = m) ∧
    (∀ (it : khmer_ReadPairIterator_Object) (isComplete : Bool)
        (pull : PairMode → NativePairPull),
      (ReadPairIterator_iternext it isComplete pull).snd = it ∧
      (ReadPairIterator_iternext it isComplete pull).fst =
        ReadPairIterator_outcome isComplete (pull it.pair_mode)) := by
  exact ⟨rfl, fun m => rfl, fun it isComplete pull => ⟨rfl, rfl⟩⟩

/-- Reference-counting state of one ReadParser object: its CPython
reference count, the number of live ReadPairIterator objects derived
from it, and the number of other live references held by the host. -/
structure RefState where
  refcount : Nat
  liveIters : Nat
  otherRefs : Nat
deriving DecidableEq, Repr

/-- Events acting on a ReadParser reference count: creating a pair
iterator (ReadParser_iter_read_pairs does Py_INCREF on the parser),
destroying one (khmer_ReadPairIterator_dealloc does Py_DECREF on its
parent), and the host acquiring or releasing one of its own
references. -/
inductive RefEvent where
  | createIter
  | destroyIter
  | dupRef
  | dropRef
deriving DecidableEq, Repr

/-- One reference-count transition. Creating an iterator requires the
parser to be alive (nonzero refcount); destroying an iterator requires
a live iterator; host acquire and release require a live host
reference. -/
def refStep : RefState → RefEvent → Option RefState
  | s, RefEvent.createIter =>
    if 0 < s.refcount then
      some ⟨s.refcount + 1, s.liveIters + 1, s.otherRefs⟩
    else none
  | s, RefEvent.destroyIter =>
    if 0 < s.liveIters then
      some ⟨s.refcount - 1, s.liveIters - 1, s.otherRefs⟩
    else none
  | s, RefEvent.dupRef =>
    if 0 < s.otherRefs then
      some ⟨s.refcount + 1, s.liveIters, s.otherRefs + 1⟩
    else none
  | s, RefEvent.dropRef =>
    if 0 < s.otherRefs then
      some ⟨s.refcount - 1, s.liveIters, s.otherRefs - 1⟩
    else none

/-- Runs a sequence of reference-count events from a starting state. -/
def runRefTrace : RefState → List RefEvent → Option RefState
  | s, [] => some s
  | s, e :: rest =>
    match refStep s e with
    | some s2 => runRefTrace s2 rest
    | none => none

/-- The state of a freshly created ReadParser: one reference held by its
creator (a host reference), no iterators. -/
def initialRefState : RefState := ⟨1, 0, 1⟩

theorem runRefTrace_balance (evs : List RefEvent) (s s2 : RefState)
    (hinv : s.refcount = s.otherRefs + s.liveIters)
    (h : runRefTrace s evs = some s2) :
    s2.refcount = s2.otherRefs + s2.liveIters := by
  induction evs generalizing s with
  | nil =>
    simp only [runRefTrace, Option.some.injEq] at h
    subst h
    exact hinv
  | cons e rest ih =>
    simp only [runRefTrace] at h
    cases hstep : refStep s e with
    | none => rw [hstep] at h; cases h
    | some smid =>
      rw [hstep] at h
      refine ih smid ?_ h
      cases e <;> simp only [refStep] at hstep <;> split at hstep <;>
        cases hstep <;> simp <;> omega

/-- C7: in every reachable interleaving of iterator creations and
destructions and host reference operations, the parser reference count
equals the number of live iterators plus the number of other live
references (each iterator creation does exactly one increment and each
iterator destruction exactly one decrement); hence while a pair
iterator is alive the parser is alive (the iterator never outlives the
parser), and destroying an iterator while another live reference exists
leaves the parser with a positive reference count, hence usable. -/
theorem claim_C7_iterator_refcount (evs : List RefEvent) (s s2 : RefState)
    (h : runRefTrace initialRefState evs = some s) :
    s.refcount = s.otherRefs + s.liveIters ∧
    (0 < s.liveIters → 0 < s.refcount) ∧
    (0 < s.otherRefs → refStep s RefEvent.destroyIter = some s2 →
      0 < s2.refcount) := by
  have hbal : s.refcount = s.otherRefs + s.liveIters :=
    runRefTrace_balance evs initialRefState s rfl h
  refine ⟨hbal, fun hl => by omega, ?_⟩
  intro ho hstep
  simp only [refStep] at hstep
  split at hstep
  · cases hstep
    simp only []
    omega
  · cases hstep

/-- Witness for C7 at the concrete trace that creates one pair iterator
from a fresh parser, reaching the state with reference count 2, one
live iterator and one host reference. -/
theorem claim_C7_iterator_refcount_witness :
    (RefState.mk 2 1 1).refcount =
        (RefState.mk 2 1 1).otherRefs + (RefState.mk 2 1 1).liveIters ∧
    (0 < (RefState.mk 2 1 1).liveIters → 0 < (RefState.mk 2 1 1).refcount) ∧
    (0 < (RefState.mk 2 1 1).otherRefs →
      refStep (RefState.mk 2 1 1) RefEvent.destroyIter =
        some (RefState.mk 1 0 1) →
      0 < (RefState.mk 1 0 1).refcount) :=
  claim_C7_iterator_refcount [RefEvent.createIter]
    (RefState.mk 2 1 1) (RefState.mk 1 0 1) (by rfl)

/-- Wrapper object of the presence engine (Hashbits): it holds one
native pointer, modelled as an address. -/
structure khmer_KHashbitsObject where
  hashbits : Nat
deriving DecidableEq, Repr

/-- Wrapper object of the labeling engine (khmer_KLabelHashObject):
embeds the presence-engine wrapper as its base struct and holds its own
labelhash pointer. -/
structure khmer_KLabelHashObject where
  khashbits : khmer_KHashbitsObject
  labelhash : Nat
deriving DecidableEq, Repr

/-- Embedding of khmer_labelhash_new: addr is the address of the single
native LabelHash allocated from word length k and the table sizes. The
C code stores that address in the labelhash field and also writes it,
cast to a Hashbits pointer, into the hashbits field of the embedded
base struct. -/
def khmer_labelhash_new (_k : Nat) (_sizes : List Nat) (addr : Nat) :
    khmer_KLabelHashObject :=
  { khashbits := { hashbits := addr }, labelhash := addr }

/-- C8 counterexample: at word length 20 with one table of size
1000003, allocated at address 42, the constructed wrapper stores the
very same native address in the base hashbits pointer field and in the
labelhash field — the base pointer aliases the labelhash allocation,
so the labeling engine does not own a presence-engine core object
distinct from its label object. -/
theorem claim_C8_counterexample :
    (khmer_labelhash_new 20 [1000003] 42).khashbits.hashbits =
      (khmer_labelhash_new 20 [1000003] 42).labelhash := rfl

/-- C8 amended: for every construction, the hashbits pointer of the
embedded base wrapper and the labelhash pointer hold the same address:
the presence-engine operations reach the LabelHash through this aliased
pointer (relying on C++ subtype layout), not through a separately owned
core with explicit forwarding. -/
theorem claim_C8_amended (k : Nat) (sizes : List Nat) (addr : Nat) :
    (khmer_labelhash_new k sizes addr).khashbits.hashbits =
      (khmer_labelhash_new k sizes addr).labelhash := rfl

/-- Modelled from the spec: the partition map of a detached
SubsetPartition sub-engine. The methods save_partitionmap and
load_partitionmap live in the SubsetPartition class, whose source is
not among the repository files given here; following the spec, the map
associates previously tagged keys with partition ids and save writes it
to storage as a flat sequence. -/
def save_partitionmap : List (Nat × Nat) → List Nat
  | [] => []
  | (k, v) :: rest => k :: v :: save_partitionmap rest

/-- Modelled from the spec: reading a persisted partition map back from
the flat stored sequence. -/
def load_partitionmap : List Nat → List (Nat × Nat)
  | k :: v :: rest => (k, v) :: load_partitionmap rest
  | _ => []

/-- The partition id a partition map assigns to a tagged key. -/
def partition_id_of (m : List (Nat × Nat)) (key : Nat) : Option Nat :=
  match m.find? (fun e => e.fst == key) with
  | some e => some e.snd
  | none => none

theorem load_save_partitionmap (m : List (Nat × Nat)) :
    load_partitionmap (save_partitionmap m) = m := by
  induction m with
  | nil => rfl
  | cons kv rest ih =>
    cases kv with
    | mk k v => simp [save_partitionmap, load_partitionmap, ih]

/-- C9: saving the partition map of a detached sub-engine and loading
it back yields a sub-engine whose partition-id assignment agrees with
the original on every key. -/
theorem claim_C9_subset_roundtrip (m : List (Nat × Nat)) (key : Nat) :
    partition_id_of (load_partitionmap (save_partitionmap m)) key =
      partition_id_of m key := by
  rw [load_save_partitionmap]
